import Mathlib

/-!
Verification development for the monitrust watcher core
(`src/watcher/mod.rs`): the `Checker`/`Alert`/`Watcher` abstraction triad,
`MultiWatcher` orchestration, and the `WatcherEnum`/`WatcherConfiguration`
closed-set polymorphism layer.

Embedding notes:
* Rust traits become explicit dictionaries (`Checker`, `Alert`, the consumed
  `AlertReporter` capability).
* `Duration` is modelled as a `Nat` (an abstract tick count); `anyhow::Result`
  becomes `Except ε`.
* The reporter is the only effectful collaborator observable through `run`;
  it is modelled by explicit state passing (`σ → ActiveAlert → Except ε Unit × σ`),
  so that the sequence of deliveries is observable in the state.
* `MultiWatcher.runTraced` is the same control flow as `MultiWatcher.run`,
  additionally recording the dynamic call events (`check`, `is_triggered`,
  `report`) so that call-count and call-order properties can be stated.
-/

/-- Mirrors `pub struct ActiveAlert { pub message: String }`. -/
structure ActiveAlert where
  message : String
deriving DecidableEq, Repr

/-- Dictionary for the Rust trait `Checker` (associated types `CheckResult` = ρ,
`Configuration` = cfg; the implementing type is χ; errors are ε). -/
structure Checker (χ cfg ρ ε : Type) where
  check : χ → Except ε ρ
  period : χ → Nat
  new : cfg → χ

/-- Dictionary for the Rust trait `Alert` (implementing type α, bound to a
checker whose `CheckResult` is ρ). -/
structure Alert (α ρ : Type) where
  is_triggered : α → ρ → Option ActiveAlert

/-- Dictionary for the consumed `AlertReporter` capability:
`report(&self, alert: &ActiveAlert) -> Result<()>`, with its observable
effects modelled by explicit state passing over σ. -/
structure AlertReporter (σ ε : Type) where
  report : σ → ActiveAlert → Except ε Unit × σ

/-- Mirrors `pub struct MultiWatcher<A: Alert> { checker: A::Checker, alerts: Vec<A> }`. -/
structure MultiWatcher (χ α : Type) where
  checker : χ
  alerts : List α

/-- Mirrors `pub struct SerializedMultiWatcher<A> { configuration: ..., alerts: Vec<A> }`. -/
structure SerializedMultiWatcher (cfg α : Type) where
  configuration : cfg
  alerts : List α

/-- Mirrors `MultiWatcher::new`: build the checker from the serialized
configuration and take the alert list as-is. -/
def MultiWatcher.new {χ cfg ρ ε α : Type} (C : Checker χ cfg ρ ε)
    (sc : SerializedMultiWatcher cfg α) : MultiWatcher χ α :=
  ⟨C.new sc.configuration, sc.alerts⟩

/-- Mirrors `MultiWatcher::period`: `self.checker.period()`. -/
def MultiWatcher.period {χ cfg ρ ε α : Type} (C : Checker χ cfg ρ ε)
    (w : MultiWatcher χ α) : Nat :=
  C.period w.checker

/-- The per-alert body of the iterator chain in `MultiWatcher::run`:
`filter_map(is_triggered)` then `inspect(info)` then report, with a reporter
error consumed by the `warn` arm. Logging has no semantic effect on the state. -/
def runStep {α ρ σ ε : Type} (A : Alert α ρ) (R : AlertReporter σ ε) (cr : ρ)
    (st : σ) (a : α) : σ :=
  match A.is_triggered a cr with
  | none => st
  | some alert =>
    match R.report st alert with
    | (Except.ok _, st2) => st2
    | (Except.error _, st2) => st2

/-- Mirrors `impl Watcher for MultiWatcher`: `run` performs `check()?`, then
drives every alert through the iterator chain, and returns `Ok(())`. -/
def MultiWatcher.run {χ cfg ρ ε α σ : Type} (C : Checker χ cfg ρ ε)
    (A : Alert α ρ) (R : AlertReporter σ ε) (w : MultiWatcher χ α) (s : σ) :
    Except ε Unit × σ :=
  match C.check w.checker with
  | Except.error e => (Except.error e, s)
  | Except.ok check_result =>
    (Except.ok (), w.alerts.foldl (runStep A R check_result) s)

/-- The triggered-alert sequence of one cycle: the first `filter_map` of the
chain in declaration order. -/
def MultiWatcher.triggered {χ α ρ : Type} (A : Alert α ρ)
    (w : MultiWatcher χ α) (cr : ρ) : List ActiveAlert :=
  w.alerts.filterMap (fun a => A.is_triggered a cr)

/-- Dynamic call events of one `run` cycle: a `check()` invocation, an
`is_triggered` evaluation (with the alert and the check result it was given),
and a `report` delivery attempt (with the `ActiveAlert` passed). -/
inductive RunEvent (α ρ : Type) where
  | checkCall : RunEvent α ρ
  | evalCall : α → ρ → RunEvent α ρ
  | reportCall : ActiveAlert → RunEvent α ρ
deriving DecidableEq

/-- Per-alert body of `run`, instrumented: same control flow as `runStep`,
also appending the events it performs. -/
def runTracedStep {α ρ σ ε : Type} (A : Alert α ρ) (R : AlertReporter σ ε)
    (cr : ρ) (p : σ × List (RunEvent α ρ)) (a : α) : σ × List (RunEvent α ρ) :=
  match A.is_triggered a cr with
  | none => (p.1, p.2 ++ [RunEvent.evalCall a cr])
  | some alert =>
    match R.report p.1 alert with
    | (Except.ok _, st2) =>
      (st2, p.2 ++ [RunEvent.evalCall a cr, RunEvent.reportCall alert])
    | (Except.error _, st2) =>
      (st2, p.2 ++ [RunEvent.evalCall a cr, RunEvent.reportCall alert])

/-- `MultiWatcher.run` with the same control flow, additionally returning the
list of dynamic call events in the order they occur. -/
def MultiWatcher.runTraced {χ cfg ρ ε α σ : Type} (C : Checker χ cfg ρ ε)
    (A : Alert α ρ) (R : AlertReporter σ ε) (w : MultiWatcher χ α) (s : σ) :
    Except ε Unit × σ × List (RunEvent α ρ) :=
  match C.check w.checker with
  | Except.error e => (Except.error e, s, [RunEvent.checkCall])
  | Except.ok check_result =>
    let r := w.alerts.foldl (runTracedStep A R check_result)
      (s, [RunEvent.checkCall])
    (Except.ok (), r.1, r.2)

/-- The `is_triggered` evaluations recorded in a trace, with their arguments,
in order. -/
def evalArgs {α ρ : Type} (tr : List (RunEvent α ρ)) : List (α × ρ) :=
  tr.filterMap (fun e => match e with
    | RunEvent.evalCall a r => some (a, r)
    | _ => none)

/-- The `report` delivery attempts recorded in a trace, with the alerts
passed, in order. -/
def reportArgs {α ρ : Type} (tr : List (RunEvent α ρ)) : List ActiveAlert :=
  tr.filterMap (fun e => match e with
    | RunEvent.reportCall al => some al
    | _ => none)

/-- How many `check()` invocations a trace records. -/
def checkCount {α ρ : Type} (tr : List (RunEvent α ρ)) : Nat :=
  tr.countP (fun e => match e with
    | RunEvent.checkCall => true
    | _ => false)

/-- A reporter over `List ActiveAlert` state that records every alert passed to
`report`, answering success or failure according to `f`. Used to observe the
exact delivery sequence of `run` under arbitrary failure patterns. -/
def recordingReporter {ε : Type}
    (f : List ActiveAlert → ActiveAlert → Except ε Unit) :
    AlertReporter (List ActiveAlert) ε :=
  ⟨fun s al => (f s al, s ++ [al])⟩

/-- Variant kinds of the closed watcher set, standing for
`std::mem::discriminant` values. -/
inductive WatcherKind where
  | DiskSpace : WatcherKind
  | Memory : WatcherKind
deriving DecidableEq, BEq, Repr

/-- Mirrors `pub enum WatcherEnum { DiskSpace(MultiWatcher<disk_space::Alert>),
Memory(MultiWatcher<memory::Alert>) }`, with the two concrete alert/checker
types abstracted as (χd, αd) and (χm, αm). -/
inductive WatcherEnum (χd αd χm αm : Type) where
  | DiskSpace : MultiWatcher χd αd → WatcherEnum χd αd χm αm
  | Memory : MultiWatcher χm αm → WatcherEnum χd αd χm αm

/-- Mirrors `WatcherEnum::period`: dispatch to the active variant's
`MultiWatcher::period`. -/
def WatcherEnum.period {χd dcfg ρd εd αd χm mcfg ρm εm αm : Type}
    (CD : Checker χd dcfg ρd εd) (CM : Checker χm mcfg ρm εm) :
    WatcherEnum χd αd χm αm → Nat
  | WatcherEnum.DiskSpace d => d.period CD
  | WatcherEnum.Memory m => m.period CM

/-- The variant kind of a `WatcherEnum`. -/
def WatcherEnum.kind {χd αd χm αm : Type} : WatcherEnum χd αd χm αm → WatcherKind
  | WatcherEnum.DiskSpace _ => WatcherKind.DiskSpace
  | WatcherEnum.Memory _ => WatcherKind.Memory

/-- Mirrors `pub enum WatcherConfiguration { DiskSpace(SerializedMultiWatcher<...>),
Memory(SerializedMultiWatcher<...>) }`. -/
inductive WatcherConfiguration (dcfg dα mcfg mα : Type) where
  | DiskSpace : SerializedMultiWatcher dcfg dα → WatcherConfiguration dcfg dα mcfg mα
  | Memory : SerializedMultiWatcher mcfg mα → WatcherConfiguration dcfg dα mcfg mα

/-- Mirrors `impl Into<WatcherEnum> for WatcherConfiguration`. -/
def WatcherConfiguration.into {χd dcfg ρd εd dα χm mcfg ρm εm mα : Type}
    (CD : Checker χd dcfg ρd εd) (CM : Checker χm mcfg ρm εm) :
    WatcherConfiguration dcfg dα mcfg mα → WatcherEnum χd dα χm mα
  | WatcherConfiguration.DiskSpace d => WatcherEnum.DiskSpace (MultiWatcher.new CD d)
  | WatcherConfiguration.Memory m => WatcherEnum.Memory (MultiWatcher.new CM m)

/-- The value of `std::mem::discriminant` on a `WatcherConfiguration`. -/
def WatcherConfiguration.discriminant {dcfg dα mcfg mα : Type} :
    WatcherConfiguration dcfg dα mcfg mα → WatcherKind
  | WatcherConfiguration.DiskSpace _ => WatcherKind.DiskSpace
  | WatcherConfiguration.Memory _ => WatcherKind.Memory

/-- Mirrors `impl PartialEq for WatcherConfiguration`:
`discriminant(self) == discriminant(other)`. -/
def WatcherConfiguration.eq {dcfg dα mcfg mα : Type}
    (a b : WatcherConfiguration dcfg dα mcfg mα) : Bool :=
  a.discriminant == b.discriminant

/-- Mirrors `impl Hash for WatcherConfiguration`: feed only
`discriminant(self)` to the hasher (a state-update function h over hasher
state σ). -/
def WatcherConfiguration.hash {dcfg dα mcfg mα σ : Type}
    (h : σ → WatcherKind → σ) (state : σ)
    (a : WatcherConfiguration dcfg dα mcfg mα) : σ :=
  h state a.discriminant

/-- The events one alert contributes to a cycle's trace: always an
`is_triggered` evaluation, followed by a delivery attempt when it fires. -/
def alertEvents {α ρ : Type} (A : Alert α ρ) (cr : ρ) (a : α) :
    List (RunEvent α ρ) :=
  match A.is_triggered a cr with
  | none => [RunEvent.evalCall a cr]
  | some alert => [RunEvent.evalCall a cr, RunEvent.reportCall alert]

/-- The events a whole alert list contributes, in declaration order. -/
def eventsOf {α ρ : Type} (A : Alert α ρ) (cr : ρ) : List α → List (RunEvent α ρ)
  | [] => []
  | a :: l => alertEvents A cr a ++ eventsOf A cr l

lemma runTracedStep_fst {α ρ σ ε : Type} (A : Alert α ρ) (R : AlertReporter σ ε)
    (cr : ρ) (p : σ × List (RunEvent α ρ)) (a : α) :
    (runTracedStep A R cr p a).1 = runStep A R cr p.1 a := by
  unfold runTracedStep runStep
  cases A.is_triggered a cr with
  | none => rfl
  | some alert =>
    rcases h2 : R.report p.1 alert with ⟨r, st2⟩
    cases r <;> simp [h2]

lemma runTracedStep_snd {α ρ σ ε : Type} (A : Alert α ρ) (R : AlertReporter σ ε)
    (cr : ρ) (p : σ × List (RunEvent α ρ)) (a : α) :
    (runTracedStep A R cr p a).2 = p.2 ++ alertEvents A cr a := by
  unfold runTracedStep alertEvents
  cases A.is_triggered a cr with
  | none => rfl
  | some alert =>
    rcases h2 : R.report p.1 alert with ⟨r, st2⟩
    cases r <;> simp [h2]

lemma foldl_traced_fst {α ρ σ ε : Type} (A : Alert α ρ) (R : AlertReporter σ ε)
    (cr : ρ) : ∀ (l : List α) (p : σ × List (RunEvent α ρ)),
    (l.foldl (runTracedStep A R cr) p).1 = l.foldl (runStep A R cr) p.1
  | [], _ => rfl
  | a :: l, p => by
    have h1 := runTracedStep_fst A R cr p a
    have h2 := runTracedStep_snd A R cr p a
    calc (List.foldl (runTracedStep A R cr) (runTracedStep A R cr p a) l).1
        = List.foldl (runStep A R cr) (runTracedStep A R cr p a).1 l :=
          foldl_traced_fst A R cr l _
      _ = List.foldl (runStep A R cr) (runStep A R cr p.1 a) l := by rw [h1]

lemma foldl_traced_snd {α ρ σ ε : Type} (A : Alert α ρ) (R : AlertReporter σ ε)
    (cr : ρ) : ∀ (l : List α) (p : σ × List (RunEvent α ρ)),
    (l.foldl (runTracedStep A R cr) p).2 = p.2 ++ eventsOf A cr l
  | [], p => by simp [eventsOf]
  | a :: l, p => by
    have h := foldl_traced_snd A R cr l (runTracedStep A R cr p a)
    simp only [List.foldl_cons] at *
    rw [h, runTracedStep_snd, eventsOf, List.append_assoc]

/-- Characterization of `runTraced` when `check()` fails. -/
lemma runTraced_check_error {χ cfg ρ ε α σ : Type} (C : Checker χ cfg ρ ε)
    (A : Alert α ρ) (R : AlertReporter σ ε) (w : MultiWatcher χ α) (s : σ)
    (e : ε) (h : C.check w.checker = Except.error e) :
    MultiWatcher.runTraced C A R w s = (Except.error e, s, [RunEvent.checkCall]) := by
  unfold MultiWatcher.runTraced
  rw [h]

/-- Characterization of `runTraced` when `check()` succeeds. -/
lemma runTraced_check_ok {χ cfg ρ ε α σ : Type} (C : Checker χ cfg ρ ε)
    (A : Alert α ρ) (R : AlertReporter σ ε) (w : MultiWatcher χ α) (s : σ)
    (cr : ρ) (h : C.check w.checker = Except.ok cr) :
    MultiWatcher.runTraced C A R w s =
      (Except.ok (), w.alerts.foldl (runStep A R cr) s,
        RunEvent.checkCall :: eventsOf A cr w.alerts) := by
  unfold MultiWatcher.runTraced
  rw [h]
  simp only [foldl_traced_fst, foldl_traced_snd]
  rfl

/-- Characterization of `run` when `check()` fails. -/
lemma run_check_error {χ cfg ρ ε α σ : Type} (C : Checker χ cfg ρ ε)
    (A : Alert α ρ) (R : AlertReporter σ ε) (w : MultiWatcher χ α) (s : σ)
    (e : ε) (h : C.check w.checker = Except.error e) :
    MultiWatcher.run C A R w s = (Except.error e, s) := by
  unfold MultiWatcher.run
  rw [h]

/-- Characterization of `run` when `check()` succeeds. -/
lemma run_check_ok {χ cfg ρ ε α σ : Type} (C : Checker χ cfg ρ ε)
    (A : Alert α ρ) (R : AlertReporter σ ε) (w : MultiWatcher χ α) (s : σ)
    (cr : ρ) (h : C.check w.checker = Except.ok cr) :
    MultiWatcher.run C A R w s = (Except.ok (), w.alerts.foldl (runStep A R cr) s) := by
  unfold MultiWatcher.run
  rw [h]

lemma runStep_recording {α ρ ε : Type} (A : Alert α ρ)
    (f : List ActiveAlert → ActiveAlert → Except ε Unit) (cr : ρ)
    (s : List ActiveAlert) (a : α) :
    runStep A (recordingReporter f) cr s a =
      match A.is_triggered a cr with
      | none => s
      | some alert => s ++ [alert] := by
  unfold runStep recordingReporter
  cases A.is_triggered a cr with
  | none => rfl
  | some alert => cases h2 : f s alert <;> simp [h2]

/-- With a recording reporter, one cycle's state change is exactly appending the
triggered alerts, irrespective of the delivery verdicts `f` produces. -/
lemma foldl_recording {α ρ ε : Type} (A : Alert α ρ)
    (f : List ActiveAlert → ActiveAlert → Except ε Unit) (cr : ρ) :
    ∀ (l : List α) (s : List ActiveAlert),
    l.foldl (runStep A (recordingReporter f) cr) s =
      s ++ l.filterMap (fun a => A.is_triggered a cr)
  | [], s => by simp
  | a :: l, s => by
    rw [List.foldl_cons, foldl_recording A f cr l, runStep_recording]
    cases h : A.is_triggered a cr <;>
      simp [List.filterMap_cons, h]

/-- When no alert fires on the check result, the cycle leaves any reporter's
state unchanged. -/
lemma foldl_none {α ρ σ ε : Type} (A : Alert α ρ) (R : AlertReporter σ ε)
    (cr : ρ) : ∀ (l : List α), (∀ a ∈ l, A.is_triggered a cr = none) →
    ∀ (s : σ), l.foldl (runStep A R cr) s = s
  | [], _, s => rfl
  | a :: l, h, s => by
    rw [List.foldl_cons]
    have ha : A.is_triggered a cr = none := h a (List.mem_cons_self a l)
    have hstep : runStep A R cr s a = s := by
      unfold runStep
      rw [ha]
    rw [hstep]
    exact foldl_none A R cr l (fun b hb => h b (List.mem_cons_of_mem a hb)) s

lemma evalArgs_append {α ρ : Type} (xs ys : List (RunEvent α ρ)) :
    evalArgs (xs ++ ys) = evalArgs xs ++ evalArgs ys := by
  unfold evalArgs
  rw [List.filterMap_append]

lemma reportArgs_append {α ρ : Type} (xs ys : List (RunEvent α ρ)) :
    reportArgs (xs ++ ys) = reportArgs xs ++ reportArgs ys := by
  unfold reportArgs
  rw [List.filterMap_append]

lemma checkCount_append {α ρ : Type} (xs ys : List (RunEvent α ρ)) :
    checkCount (xs ++ ys) = checkCount xs + checkCount ys := by
  unfold checkCount
  rw [List.countP_append]

/-- Each alert contributes exactly one `is_triggered` evaluation to the trace,
with the single check result as argument. -/
lemma evalArgs_eventsOf {α ρ : Type} (A : Alert α ρ) (cr : ρ) :
    ∀ (l : List α), evalArgs (eventsOf A cr l) = l.map (fun a => (a, cr))
  | [] => rfl
  | a :: l => by
    rw [eventsOf, evalArgs_append, evalArgs_eventsOf A cr l, List.map_cons]
    unfold alertEvents evalArgs
    cases A.is_triggered a cr <;> rfl

/-- The delivery attempts in the trace are exactly the triggered alerts, in
declaration order. -/
lemma reportArgs_eventsOf {α ρ : Type} (A : Alert α ρ) (cr : ρ) :
    ∀ (l : List α),
    reportArgs (eventsOf A cr l) = l.filterMap (fun a => A.is_triggered a cr)
  | [] => rfl
  | a :: l => by
    rw [eventsOf, reportArgs_append, reportArgs_eventsOf A cr l,
      List.filterMap_cons]
    cases h : A.is_triggered a cr <;>
      simp [alertEvents, reportArgs, h]

lemma checkCount_eventsOf {α ρ : Type} (A : Alert α ρ) (cr : ρ) :
    ∀ (l : List α), checkCount (eventsOf A cr l) = 0
  | [] => rfl
  | a :: l => by
    rw [eventsOf, checkCount_append, checkCount_eventsOf A cr l]
    unfold alertEvents checkCount
    cases A.is_triggered a cr <;> rfl

lemma evalArgs_cons_check {α ρ : Type} (l : List (RunEvent α ρ)) :
    evalArgs (RunEvent.checkCall :: l) = evalArgs l := rfl

lemma reportArgs_cons_check {α ρ : Type} (l : List (RunEvent α ρ)) :
    reportArgs (RunEvent.checkCall :: l) = reportArgs l := rfl

lemma checkCount_cons_check {α ρ : Type} (l : List (RunEvent α ρ)) :
    checkCount (RunEvent.checkCall :: l) = checkCount l + 1 := by
  unfold checkCount
  rw [List.countP_cons]
  rfl

/-! Concrete instances used by the witnesses: a threshold alert over a `Nat`
usage reading, a checker that observes usage 95, and a checker whose
observation fails. -/

/-- A threshold alert: fires when the observed usage reaches the threshold,
with the threshold as message. -/
def aTh : Alert Nat Nat :=
  ⟨fun th cr => if th ≤ cr then some ⟨toString th⟩ else none⟩

/-- A checker whose observation always succeeds with usage 95. -/
def cOK : Checker Unit Unit Nat String :=
  ⟨fun _ => Except.ok 95, fun _ => 60, fun _ => ()⟩

/-- A checker whose observation always fails. -/
def cErr : Checker Unit Unit Nat String :=
  ⟨fun _ => Except.error "io", fun _ => 60, fun _ => ()⟩

/-- A recording reporter whose deliveries all succeed. -/
def rep0 : AlertReporter (List ActiveAlert) String :=
  recordingReporter (fun _ _ => Except.ok ())

/-- A recording reporter whose deliveries all fail. -/
def repFail : AlertReporter (List ActiveAlert) String :=
  recordingReporter (fun _ _ => Except.error "delivery down")

/-- Two alerts, thresholds 90 and 99: the first fires at usage 95. -/
def wOK : MultiWatcher Unit Nat := ⟨(), [90, 99]⟩

/-- One alert, threshold 90. -/
def wOne : MultiWatcher Unit Nat := ⟨(), [90]⟩

/-- Two alerts, thresholds 96 and 99: none fires at usage 95. -/
def wHigh : MultiWatcher Unit Nat := ⟨(), [96, 99]⟩

/-- A watcher with no alerts. -/
def wEmpty : MultiWatcher Unit Nat := ⟨(), []⟩

/-- Concrete serialized configurations and watcher configurations. -/
def scD1 : SerializedMultiWatcher Nat Nat := ⟨1, [2, 3]⟩

def scD2 : SerializedMultiWatcher Nat Nat := ⟨7, []⟩

def scM1 : SerializedMultiWatcher Nat Nat := ⟨4, [5]⟩

def wcD1 : WatcherConfiguration Nat Nat Nat Nat := WatcherConfiguration.DiskSpace scD1

def wcD2 : WatcherConfiguration Nat Nat Nat Nat := WatcherConfiguration.DiskSpace scD2

def wcM1 : WatcherConfiguration Nat Nat Nat Nat := WatcherConfiguration.Memory scM1

/-- A concrete hasher state-update function over `Nat` states. -/
def hNat : Nat → WatcherKind → Nat := fun s k =>
  match k with
  | WatcherKind.DiskSpace => s * 31 + 1
  | WatcherKind.Memory => s * 31 + 2

/-- C1: if the checker's `check()` returns an error, `run` returns that same
error, no alert's `is_triggered` is evaluated, and the reporter's `report` is
called zero times (for any reporter, the state is untouched and the trace has
no evaluation and no delivery events). -/
theorem checkFailurePropagates {χ cfg ρ ε α σ : Type} (C : Checker χ cfg ρ ε)
    (A : Alert α ρ) (R : AlertReporter σ ε) (w : MultiWatcher χ α) (s : σ)
    (e : ε) (h : C.check w.checker = Except.error e) :
    MultiWatcher.run C A R w s = (Except.error e, s) ∧
    evalArgs ((MultiWatcher.runTraced C A R w s).2.2) = [] ∧
    reportArgs ((MultiWatcher.runTraced C A R w s).2.2) = [] := by
  refine ⟨run_check_error C A R w s e h, ?_, ?_⟩ <;>
    rw [runTraced_check_error C A R w s e h] <;> rfl

theorem checkFailurePropagates_witness :
    MultiWatcher.run cErr aTh rep0 wOne [] = (Except.error "io", []) ∧
    evalArgs ((MultiWatcher.runTraced cErr aTh rep0 wOne []).2.2) = [] ∧
    reportArgs ((MultiWatcher.runTraced cErr aTh rep0 wOne []).2.2) = [] :=
  checkFailurePropagates cErr aTh rep0 wOne [] "io" rfl

/-- C2: when `check()` succeeds, `run` returns success for every reporter
(failing deliveries included), and the trace still evaluates every alert and
attempts delivery for every triggered alert: reporter failures neither abort
the cycle nor skip later alerts. -/
theorem reporterFailuresNeverAbort {χ cfg ρ ε α σ : Type} (C : Checker χ cfg ρ ε)
    (A : Alert α ρ) (w : MultiWatcher χ α) (cr : ρ) (R : AlertReporter σ ε)
    (s : σ) (h : C.check w.checker = Except.ok cr) :
    (MultiWatcher.run C A R w s).1 = Except.ok () ∧
    reportArgs ((MultiWatcher.runTraced C A R w s).2.2) =
      MultiWatcher.triggered A w cr ∧
    evalArgs ((MultiWatcher.runTraced C A R w s).2.2) =
      w.alerts.map (fun a => (a, cr)) := by
  rw [run_check_ok C A R w s cr h, runTraced_check_ok C A R w s cr h]
  refine ⟨rfl, ?_, ?_⟩
  · rw [show ((Except.ok (), w.alerts.foldl (runStep A R cr) s,
        RunEvent.checkCall :: eventsOf A cr w.alerts)).2.2 =
        RunEvent.checkCall :: eventsOf A cr w.alerts from rfl,
      reportArgs_cons_check, reportArgs_eventsOf]
    rfl
  · rw [show ((Except.ok (), w.alerts.foldl (runStep A R cr) s,
        RunEvent.checkCall :: eventsOf A cr w.alerts)).2.2 =
        RunEvent.checkCall :: eventsOf A cr w.alerts from rfl,
      evalArgs_cons_check, evalArgs_eventsOf]

theorem reporterFailuresNeverAbort_witness :
    (MultiWatcher.run cOK aTh repFail wOK []).1 = Except.ok () ∧
    reportArgs ((MultiWatcher.runTraced cOK aTh repFail wOK []).2.2) =
      MultiWatcher.triggered aTh wOK 95 ∧
    evalArgs ((MultiWatcher.runTraced cOK aTh repFail wOK []).2.2) =
      wOK.alerts.map (fun a => (a, 95)) :=
  reporterFailuresNeverAbort cOK aTh wOK 95 repFail [] rfl

/-- C3: when `check()` succeeds, the reporter is called exactly once for each
alert whose `is_triggered` fires, with exactly that `ActiveAlert`, in the
alerts' declaration order (the recorded delivery sequence is exactly
`triggered`); in particular a single triggering alert is reported exactly
once. -/
theorem triggeredAlertsReportedInOrder {χ cfg ρ ε α : Type}
    (C : Checker χ cfg ρ ε) (A : Alert α ρ) (w : MultiWatcher χ α) (cr : ρ)
    (f : List ActiveAlert → ActiveAlert → Except ε Unit) (s : List ActiveAlert)
    (h : C.check w.checker = Except.ok cr) :
    (MultiWatcher.run C A (recordingReporter f) w s).2 =
      s ++ MultiWatcher.triggered A w cr ∧
    (∀ al : ActiveAlert, MultiWatcher.triggered A w cr = [al] →
      (MultiWatcher.run C A (recordingReporter f) w s).2 = s ++ [al]) := by
  have hrun : (MultiWatcher.run C A (recordingReporter f) w s).2 =
      s ++ MultiWatcher.triggered A w cr := by
    rw [run_check_ok C A (recordingReporter f) w s cr h]
    exact foldl_recording A f cr w.alerts s
  exact ⟨hrun, fun al hal => by rw [hrun, hal]⟩

theorem triggeredAlertsReportedInOrder_witness :
    (MultiWatcher.run cOK aTh (recordingReporter fun _ _ => Except.ok ())
        wOne []).2 = [] ++ MultiWatcher.triggered aTh wOne 95 ∧
    (MultiWatcher.run cOK aTh (recordingReporter fun _ _ => Except.ok ())
        wOne []).2 = [] ++ [ActiveAlert.mk "90"] :=
  have h := triggeredAlertsReportedInOrder cOK aTh wOne 95
    (fun _ _ => Except.ok ()) [] rfl
  ⟨h.1, h.2 (ActiveAlert.mk "90") (by decide)⟩

/-- C4: for a check result on which no alert fires, `run` leaves any reporter's
state unchanged (zero calls), records no delivery events, and returns
success. -/
theorem noTriggerNoReport {χ cfg ρ ε α σ : Type} (C : Checker χ cfg ρ ε)
    (A : Alert α ρ) (R : AlertReporter σ ε) (w : MultiWatcher χ α) (s : σ)
    (cr : ρ) (h : C.check w.checker = Except.ok cr)
    (hnone : ∀ a ∈ w.alerts, A.is_triggered a cr = none) :
    MultiWatcher.run C A R w s = (Except.ok (), s) ∧
    reportArgs ((MultiWatcher.runTraced C A R w s).2.2) = [] := by
  constructor
  · rw [run_check_ok C A R w s cr h, foldl_none A R cr w.alerts hnone s]
  · rw [runTraced_check_ok C A R w s cr h]
    rw [show ((Except.ok (), w.alerts.foldl (runStep A R cr) s,
        RunEvent.checkCall :: eventsOf A cr w.alerts)).2.2 =
        RunEvent.checkCall :: eventsOf A cr w.alerts from rfl,
      reportArgs_cons_check, reportArgs_eventsOf]
    exact List.filterMap_eq_nil_iff.mpr hnone

theorem noTriggerNoReport_witness :
    MultiWatcher.run cOK aTh rep0 wHigh [] = (Except.ok (), []) ∧
    reportArgs ((MultiWatcher.runTraced cOK aTh rep0 wHigh []).2.2) = [] :=
  noTriggerNoReport cOK aTh rep0 wHigh [] 95 rfl (by decide)

/-- C5 counterexample: on a watcher whose `check()` fails, the single alert's
`is_triggered` is evaluated zero times, not exactly once — the claim, which
asserts one evaluation per alert for every call to `run`, fails at this
input. -/
theorem singleEvaluationCounterexample :
    wOne.alerts = [90] ∧
    evalArgs ((MultiWatcher.runTraced cErr aTh rep0 wOne []).2.2) = [] :=
  ⟨rfl, rfl⟩

/-- C5 amended: during one call to `run`, `check()` is invoked exactly once;
and whenever it succeeds, every alert's `is_triggered` is evaluated exactly
once, in the configured order, against that single check result. (As stated,
the claim fails when `check()` errors: then no alert is evaluated at all.) -/
theorem singleCheckSingleEvaluation {χ cfg ρ ε α σ : Type}
    (C : Checker χ cfg ρ ε) (A : Alert α ρ) (R : AlertReporter σ ε)
    (w : MultiWatcher χ α) (s : σ) :
    checkCount ((MultiWatcher.runTraced C A R w s).2.2) = 1 ∧
    ∀ cr : ρ, C.check w.checker = Except.ok cr →
      evalArgs ((MultiWatcher.runTraced C A R w s).2.2) =
        w.alerts.map (fun a => (a, cr)) := by
  constructor
  · cases hck : C.check w.checker with
    | error e => rw [runTraced_check_error C A R w s e hck]; rfl
    | ok cr =>
      rw [runTraced_check_ok C A R w s cr hck]
      rw [show ((Except.ok (), w.alerts.foldl (runStep A R cr) s,
          RunEvent.checkCall :: eventsOf A cr w.alerts)).2.2 =
          RunEvent.checkCall :: eventsOf A cr w.alerts from rfl,
        checkCount_cons_check, checkCount_eventsOf]
  · intro cr hck
    rw [runTraced_check_ok C A R w s cr hck]
    rw [show ((Except.ok (), w.alerts.foldl (runStep A R cr) s,
        RunEvent.checkCall :: eventsOf A cr w.alerts)).2.2 =
        RunEvent.checkCall :: eventsOf A cr w.alerts from rfl,
      evalArgs_cons_check, evalArgs_eventsOf]

theorem singleCheckSingleEvaluation_witness :
    checkCount ((MultiWatcher.runTraced cOK aTh rep0 wOK []).2.2) = 1 ∧
    evalArgs ((MultiWatcher.runTraced cOK aTh rep0 wOK []).2.2) =
      [(90, 95), (99, 95)] :=
  have h := singleCheckSingleEvaluation cOK aTh rep0 wOK []
  ⟨h.1, by rw [h.2 95 rfl]; rfl⟩

/-- C6: two `WatcherConfiguration` values of the same variant kind compare
equal and hash identically under every hasher, whatever their inner
configuration or alert contents; values of different kinds never compare
equal. -/
theorem kindOnlyEqualityAndHash {dcfg dα mcfg mα : Type}
    (a b : WatcherConfiguration dcfg dα mcfg mα) :
    (a.discriminant = b.discriminant →
      WatcherConfiguration.eq a b = true ∧
      ∀ (σ : Type) (h : σ → WatcherKind → σ) (st : σ),
        WatcherConfiguration.hash h st a = WatcherConfiguration.hash h st b) ∧
    (a.discriminant ≠ b.discriminant →
      WatcherConfiguration.eq a b = false) := by
  cases a <;> cases b <;>
    simp [WatcherConfiguration.eq, WatcherConfiguration.discriminant,
      WatcherConfiguration.hash] <;>
    decide

theorem kindOnlyEqualityAndHash_witness :
    WatcherConfiguration.eq wcD1 wcD2 = true ∧
    WatcherConfiguration.hash hNat 0 wcD1 = WatcherConfiguration.hash hNat 0 wcD2 ∧
    WatcherConfiguration.eq wcD1 wcM1 = false :=
  have h1 := (kindOnlyEqualityAndHash wcD1 wcD2).1 rfl
  have h2 := (kindOnlyEqualityAndHash wcD1 wcM1).2 (by decide)
  ⟨h1.1, h1.2 Nat hNat 0, h2⟩

/-- C7: converting a `WatcherConfiguration` into a `WatcherEnum` and reading
back `period()` yields exactly the period of the checker constructed (by
`new`) from the configuration's checker-configuration value. -/
theorem periodRoundTrip {χd dcfg ρd εd dα χm mcfg ρm εm mα : Type}
    (CD : Checker χd dcfg ρd εd) (CM : Checker χm mcfg ρm εm)
    (c : WatcherConfiguration dcfg dα mcfg mα) :
    WatcherEnum.period CD CM (WatcherConfiguration.into CD CM c) =
      match c with
      | WatcherConfiguration.DiskSpace d => CD.period (CD.new d.configuration)
      | WatcherConfiguration.Memory m => CM.period (CM.new m.configuration) := by
  cases c <;> rfl

/-- C8: `run` carries no state between cycles: a second call on the same
watcher (the checker answering identically, being a pure function here)
appends to a recording reporter exactly the same delivery sequence as the
first call did. -/
theorem runIsStatelessAcrossCycles {χ cfg ρ ε α : Type} (C : Checker χ cfg ρ ε)
    (A : Alert α ρ) (f : List ActiveAlert → ActiveAlert → Except ε Unit)
    (w : MultiWatcher χ α) :
    (MultiWatcher.run C A (recordingReporter f) w
        ((MultiWatcher.run C A (recordingReporter f) w []).2)).2 =
      (MultiWatcher.run C A (recordingReporter f) w []).2 ++
        (MultiWatcher.run C A (recordingReporter f) w []).2 := by
  cases hck : C.check w.checker with
  | error e =>
    have h1 := fun s => run_check_error C A (recordingReporter f) w s e hck
    rw [h1, h1]
    rfl
  | ok cr =>
    have h1 : ∀ s, (MultiWatcher.run C A (recordingReporter f) w s).2 =
        s ++ MultiWatcher.triggered A w cr := fun s => by
      rw [run_check_ok C A (recordingReporter f) w s cr hck]
      exact foldl_recording A f cr w.alerts s
    simp only [h1, List.nil_append]

/-- C9 counterexample: a watcher with an empty alert sequence whose `check()`
fails makes `run` return the checker's error, not success — the claim, which
asserts success for every empty-alert watcher, fails at this input. -/
theorem emptyAlertsCounterexample :
    wEmpty.alerts = [] ∧
    (MultiWatcher.run cErr aTh rep0 wEmpty []).1 = Except.error "io" ∧
    (Except.error "io" : Except String Unit) ≠ Except.ok () :=
  ⟨rfl, rfl, fun h => Except.noConfusion h⟩

/-- C9 amended: for a watcher with an empty alert sequence whose `check()`
succeeds, `run` succeeds and the reporter receives zero calls (any reporter's
state is untouched). -/
theorem emptyAlertsTrivialSuccess {χ cfg ρ ε α σ : Type} (C : Checker χ cfg ρ ε)
    (A : Alert α ρ) (R : AlertReporter σ ε) (w : MultiWatcher χ α) (s : σ)
    (cr : ρ) (hempty : w.alerts = []) (h : C.check w.checker = Except.ok cr) :
    MultiWatcher.run C A R w s = (Except.ok (), s) := by
  rw [run_check_ok C A R w s cr h, hempty]
  rfl

theorem emptyAlertsTrivialSuccess_witness :
    MultiWatcher.run cOK aTh rep0 wEmpty [] = (Except.ok (), []) :=
  emptyAlertsTrivialSuccess cOK aTh rep0 wEmpty [] 95 rfl rfl

/-- C10: conversion into `WatcherEnum` preserves the variant kind, keeps the
alert list exactly (same elements, same order), and builds the checker as
`Checker::new` of the configuration's checker-configuration value. -/
theorem conversionPreservesStructure {χd dcfg ρd εd dα χm mcfg ρm εm mα : Type}
    (CD : Checker χd dcfg ρd εd) (CM : Checker χm mcfg ρm εm)
    (c : WatcherConfiguration dcfg dα mcfg mα) :
    (WatcherConfiguration.into CD CM c).kind = c.discriminant ∧
    (match c with
      | WatcherConfiguration.DiskSpace d =>
        WatcherConfiguration.into CD CM c =
          WatcherEnum.DiskSpace ⟨CD.new d.configuration, d.alerts⟩
      | WatcherConfiguration.Memory m =>
        WatcherConfiguration.into CD CM c =
          WatcherEnum.Memory ⟨CM.new m.configuration, m.alerts⟩) := by
  cases c <;> exact ⟨rfl, rfl⟩

